import Mathlib

/-!
# Verification of the MarketVision-Pro connection manager

A shallow embedding of `src/frontend/src/hooks/useWebSocket.ts`, the
real-time data-feed connection manager (state machine, timers, health
probe, latency sampler, subscription registry, synthetic-mode fallback),
together with theorems settling the specification claims about it.

Modelling conventions:
* Each mutable React ref / state variable of the hook becomes a field of
  `HookState`.  Timer refs are modelled by a `Bool` recording whether a
  timer of that kind is currently outstanding (the code keeps at most one
  timer per ref).
* Each callback of the hook (`connect`, the `quickCheck` continuation,
  `ws.onopen`, `ws.onmessage`, `ws.onclose`, `ws.onerror`, the connection
  timeout, the ping interval tick, `disconnect`, `subscribe`,
  `unsubscribe`, the mount fallback timeout, the mock-latency tick)
  becomes a total function on `HookState`, returning the new state and
  the list of wire messages sent.
* The health probe (`quickCheck`) is modelled by its three possible
  outcomes: `response.ok` true, `response.ok` false, or a fetch error /
  abort (the code maps the last to `null` and proceeds anyway).
* The React effect keyed on `isMockMode` (which arms the 3-second
  mock-latency interval exactly while `isMockMode` holds) is applied
  after every event step, as `mockModeEffect`.
* Wire messages are the JSON object literals the code passes to
  `JSON.stringify`, modelled as key/value string pairs.
-/

namespace MarketVision

/-- Line 33: `const maxReconnectAttempts = 2`. -/
def maxReconnectAttempts : Nat := 2

/-- Line 54: the 300 ms abort timeout of the health probe fetch. -/
def probeTimeoutMs : Nat := 300

/-- Line 100: the 1.2 s connection timeout armed before opening the socket. -/
def connectionTimeoutMs : Nat := 1200

/-- Line 318: the 0.8 s fallback timeout armed by the mount effect. -/
def fallbackTimeoutMs : Nat := 800

/-- Line 184: base of the reconnect backoff (`500 * Math.pow(2, attempts)`). -/
def backoffBaseMs : Nat := 500

/-- Line 184: the `Math.min(_, 3000)` cap on the reconnect backoff delay. -/
def backoffCapMs : Nat := 3000

/-- Line 121: the 30 s ping interval. -/
def pingIntervalMs : Nat := 30000

/-- Line 290: the 3 s mock-latency interval. -/
def mockLatencyIntervalMs : Nat := 3000

/-- The `connectionStatus` React state (line 25). -/
inductive ConnStatus
  | connecting
  | connected
  | disconnected
  | error
deriving DecidableEq, Repr

/-- The `readyState` of the WebSocket held in `wsRef`. -/
inductive WsState
  | connecting
  | opened
  | closing
  | closed
deriving DecidableEq, Repr

/-- The most recent local `close` call issued on the current socket:
none yet, `ws.close()` without a code (connection-timeout handler,
line 92), or `ws.close(code, reason)` (`disconnect`, line 234). -/
inductive CloseRequest
  | noRequest
  | withoutCode
  | withCode (code : Nat) (reason : String)
deriving DecidableEq, Repr

/-- Outcome of the `quickCheck` health probe (lines 51-73): the fetch
resolved with `response.ok` true, resolved with `response.ok` false, or
threw (network failure, blocked request, 300 ms abort) — which the code
turns into `null` and treats as "try the WebSocket anyway". -/
inductive ProbeResult
  | ok
  | notOk
  | fetchError
deriving DecidableEq, Repr

/-- Inbound message after `JSON.parse`, discriminated on `type`
(lines 134-156); `malformed` stands for a payload on which the parse
throws, which the handler catches and logs. -/
inductive InMsg
  | pong
  | marketDataUpdate
  | subscriptionResponse (symbol : Option String) (success : Option Bool)
  | unsubscriptionResponse (symbol : Option String) (success : Option Bool)
  | other (t : String)
  | malformed
deriving DecidableEq, Repr

/-- A wire message: the JSON object literal passed to `JSON.stringify`,
as key/value string pairs in source order. -/
abbrev WireMsg := List (String × String)

/-- Line 119: `{ type: 'ping' }`. -/
def pingMsg : WireMsg := [("type", "ping")]

/-- Lines 125 and 262: `{ type: 'subscribe', symbol }`. -/
def subscribeMsg (symbol : String) : WireMsg :=
  [("type", "subscribe"), ("symbol", symbol)]

/-- Line 272: `{ type: 'unsubscribe', symbol }`. -/
def unsubscribeMsg (symbol : String) : WireMsg :=
  [("type", "unsubscribe"), ("symbol", symbol)]

/-- Whether a wire message object carries a field named `k`. -/
def hasKey (k : String) (m : WireMsg) : Bool :=
  m.any (fun p => p.1 == k)

/-- The mutable state of the hook: React state (lines 23-26) and refs
(lines 27-35), plus the mount-effect fallback timer (line 310) and a
ghost counter of sockets created (line 102) used to state that a probe
failure skips the handshake. -/
structure HookState where
  isConnected : Bool
  latency : Int
  connectionStatus : ConnStatus
  isMockMode : Bool
  ws : Option WsState
  closeRequest : CloseRequest
  reconnectTimer : Bool
  scheduledDelay : Nat
  pingInterval : Bool
  lastPing : Nat
  subscriptions : List String
  reconnectAttempts : Nat
  mockLatencyInterval : Bool
  connectionTimer : Bool
  fallbackTimer : Bool
  socketsCreated : Nat
deriving DecidableEq, Repr

/-- Initial values of the state and refs (lines 23-35). -/
def initialState : HookState :=
  { isConnected := false
    latency := 0
    connectionStatus := .disconnected
    isMockMode := false
    ws := none
    closeRequest := .noRequest
    reconnectTimer := false
    scheduledDelay := 0
    pingInterval := false
    lastPing := 0
    subscriptions := []
    reconnectAttempts := 0
    mockLatencyInterval := false
    connectionTimer := false
    fallbackTimer := false
    socketsCreated := 0 }

/-- `connect` (lines 37-230), with the asynchronous `quickCheck`
resolved to its outcome `p`.  If the socket is already open it returns
early; otherwise it clears any pending connection timeout, sets status
to connecting, and then either goes straight to mock mode on an
explicitly negative probe (lines 77-86) or arms the 1.2 s connection
timeout and creates a new socket (lines 90-103). -/
def connect (s : HookState) (p : ProbeResult) : HookState :=
  if s.ws = some .opened then s
  else
    let s1 := { s with connectionTimer := false, connectionStatus := .connecting }
    match p with
    | .notOk =>
        { s1 with connectionStatus := .error, isMockMode := true }
    | _ =>
        { s1 with connectionTimer := true
                  ws := some .connecting
                  closeRequest := .noRequest
                  socketsCreated := s1.socketsCreated + 1 }

/-- `ws.onopen` (lines 105-132): cancel the connection timeout, mark
connected, leave mock mode, reset the reconnect counter, start the ping
interval, and replay one subscribe message per stored subscription.
`lastPingRef` is not touched. -/
def handleOpen (s : HookState) : HookState × List WireMsg :=
  ({ s with connectionTimer := false
            isConnected := true
            connectionStatus := .connected
            isMockMode := false
            reconnectAttempts := 0
            pingInterval := true
            ws := some .opened },
   s.subscriptions.map subscribeMsg)

/-- `ws.onmessage` (lines 134-156) at wall-clock time `now`: a `pong`
sets latency to `now - lastPingRef.current`; every other recognized
type only logs; unknown types fall through; a parse failure is caught
and logged.  In all cases no further state changes. -/
def handleMessage (s : HookState) (m : InMsg) (now : Nat) : HookState :=
  match m with
  | .pong => { s with latency := (now : Int) - (s.lastPing : Int) }
  | _ => s

/-- `ws.onclose` (lines 158-198) with close code `code`: cancel the
connection timeout, mark disconnected, clear the ping interval; then —
first — if the reconnect counter is 0, enter mock mode and return;
otherwise, on an abnormal code below the attempt cap, increment the
counter and arm the backoff reconnect timer; otherwise, at or above the
cap, set error status and enter mock mode. -/
def handleClose (s : HookState) (code : Nat) : HookState :=
  let s1 := { s with connectionTimer := false
                     isConnected := false
                     connectionStatus := .disconnected
                     pingInterval := false
                     ws := s.ws.map (fun _ => WsState.closed) }
  if s1.reconnectAttempts = 0 then
    { s1 with isMockMode := true }
  else if code ≠ 1000 ∧ s1.reconnectAttempts < maxReconnectAttempts then
    { s1 with reconnectAttempts := s1.reconnectAttempts + 1
              scheduledDelay :=
                min (backoffBaseMs * 2 ^ (s1.reconnectAttempts + 1)) backoffCapMs
              reconnectTimer := true }
  else if maxReconnectAttempts ≤ s1.reconnectAttempts then
    { s1 with connectionStatus := .error, isMockMode := true }
  else s1

/-- `ws.onerror` (lines 200-215): cancel the connection timeout, set
error status, and enter mock mode if the reconnect counter is 0. -/
def handleError (s : HookState) : HookState :=
  let s1 := { s with connectionTimer := false, connectionStatus := .error }
  if s1.reconnectAttempts = 0 then { s1 with isMockMode := true } else s1

/-- The 1.2 s connection-timeout callback (lines 90-100): if the socket
is not open, call `ws.close()` (no code), set error status and enter
mock mode.  Firing consumes the one-shot timer. -/
def handleConnectionTimeout (s : HookState) : HookState :=
  let s1 := { s with connectionTimer := false }
  if s1.ws = some WsState.opened then s1
  else
    { s1 with ws := s1.ws.map (fun _ => WsState.closing)
              closeRequest :=
                if s1.ws.isSome then CloseRequest.withoutCode else s1.closeRequest
              connectionStatus := .error
              isMockMode := true }

/-- `disconnect` (lines 232-258): close the socket with the normal code
1000, null the ref, clear the reconnect / connection / ping /
mock-latency timers, mark disconnected, leave mock mode, and reset the
reconnect counter. -/
def disconnect (s : HookState) : HookState :=
  let s1 :=
    match s.ws with
    | some _ => { s with closeRequest := CloseRequest.withCode 1000 "Client disconnect"
                         ws := none }
    | none => s
  { s1 with reconnectTimer := false
            connectionTimer := false
            pingInterval := false
            mockLatencyInterval := false
            isConnected := false
            connectionStatus := .disconnected
            isMockMode := false
            reconnectAttempts := 0 }

/-- Insertion into the subscription set: `Set.add` keeps the existing
element set and appends a new element at the end. -/
def addSubscription (subs : List String) (symbol : String) : List String :=
  if symbol ∈ subs then subs else subs ++ [symbol]

/-- `subscribe` (lines 260-268): if the socket is open, send the
subscribe message and add the symbol; otherwise just store the symbol
for replay on the next connection. -/
def subscribe (s : HookState) (symbol : String) : HookState × List WireMsg :=
  if s.ws = some WsState.opened then
    ({ s with subscriptions := addSubscription s.subscriptions symbol },
     [subscribeMsg symbol])
  else
    ({ s with subscriptions := addSubscription s.subscriptions symbol }, [])

/-- `unsubscribe` (lines 270-275): if the socket is open, send the
unsubscribe message; in every case delete the symbol from the set. -/
def unsubscribe (s : HookState) (symbol : String) : HookState × List WireMsg :=
  if s.ws = some WsState.opened then
    ({ s with subscriptions := s.subscriptions.erase symbol },
     [unsubscribeMsg symbol])
  else
    ({ s with subscriptions := s.subscriptions.erase symbol }, [])

/-- One tick of the 30 s ping interval (lines 116-121) at wall-clock
time `now`: if the socket is open, record the send time in
`lastPingRef` and send `{ type: 'ping' }`. -/
def pingTick (s : HookState) (now : Nat) : HookState × List WireMsg :=
  if s.ws = some WsState.opened then
    ({ s with lastPing := now }, [pingMsg])
  else (s, [])

/-- The 0.8 s mount fallback timeout (lines 310-318): when it fires and
the hook is neither connected nor already in mock mode, enter mock
mode.  Firing consumes the one-shot timer. -/
def handleFallback (s : HookState) : HookState :=
  let s1 := { s with fallbackTimer := false }
  if s1.isConnected = false ∧ s1.isMockMode = false then
    { s1 with isMockMode := true }
  else s1

/-- One tick of the 3 s mock-latency interval (lines 288-290):
`Math.floor(Math.random() * 30) + 5`, with the random draw supplied as
`r`. -/
def mockTick (s : HookState) (r : Nat) : HookState :=
  { s with latency := ((r % 30) + 5 : Nat) }

/-- The effect keyed on `isMockMode` (lines 286-302): the mock-latency
interval is armed exactly while `isMockMode` holds. -/
def mockModeEffect (s : HookState) : HookState :=
  if s.isMockMode then { s with mockLatencyInterval := true }
  else { s with mockLatencyInterval := false }

/-- The events the hook reacts to. -/
inductive Event
  | connectCall (p : ProbeResult)
  | wsOpen
  | wsMessage (m : InMsg) (now : Nat)
  | wsClose (code : Nat)
  | wsError
  | connectionTimeoutFire
  | pingIntervalFire (now : Nat)
  | disconnectCall
  | subscribeCall (symbol : String)
  | unsubscribeCall (symbol : String)
  | fallbackFire
  | mockLatencyFire (r : Nat)
deriving DecidableEq, Repr

/-- Dispatch one event to its handler, collecting sent messages. -/
def stepCore (s : HookState) (e : Event) : HookState × List WireMsg :=
  match e with
  | .connectCall p => (connect s p, [])
  | .wsOpen => handleOpen s
  | .wsMessage m now => (handleMessage s m now, [])
  | .wsClose code => (handleClose s code, [])
  | .wsError => (handleError s, [])
  | .connectionTimeoutFire => (handleConnectionTimeout s, [])
  | .pingIntervalFire now => pingTick s now
  | .disconnectCall => (disconnect s, [])
  | .subscribeCall symbol => subscribe s symbol
  | .unsubscribeCall symbol => unsubscribe s symbol
  | .fallbackFire => (handleFallback s, [])
  | .mockLatencyFire r => (mockTick s r, [])

/-- One event step followed by the `isMockMode` effect. -/
def step (s : HookState) (e : Event) : HookState :=
  mockModeEffect (stepCore s e).1

/-- Run a sequence of events. -/
def run (s : HookState) (es : List Event) : HookState :=
  es.foldl step s

/-- The mount effect (lines 304-324): call `connect()` (resolved with
probe outcome `p`) and arm the 0.8 s fallback timeout. -/
def mount (p : ProbeResult) : HookState :=
  { connect initialState p with fallbackTimer := true }

/-- Composite failure of a connection attempt by timeout: the 1.2 s
connection timeout fires on a non-open socket, whose `ws.close()` then
delivers an abnormal closure (code 1006) to `ws.onclose`. -/
def connectTimeoutThenClose (s : HookState) : HookState :=
  handleClose (handleConnectionTimeout s) 1006

/-- A state as produced by a successful first connection: socket open,
ping interval running, reconnect counter 0, no ping sent yet. -/
def sampleConnectedState : HookState :=
  { isConnected := true
    latency := 12
    connectionStatus := .connected
    isMockMode := false
    ws := some .opened
    closeRequest := .noRequest
    reconnectTimer := false
    scheduledDelay := 0
    pingInterval := true
    lastPing := 0
    subscriptions := []
    reconnectAttempts := 0
    mockLatencyInterval := false
    connectionTimer := false
    fallbackTimer := false
    socketsCreated := 1 }

/-- A state in the middle of a retried connection attempt: socket
connecting, connection timeout armed, reconnect counter 1. -/
def sampleRetryingState : HookState :=
  { isConnected := false
    latency := 0
    connectionStatus := .connecting
    isMockMode := false
    ws := some .connecting
    closeRequest := .noRequest
    reconnectTimer := false
    scheduledDelay := 0
    pingInterval := false
    lastPing := 0
    subscriptions := []
    reconnectAttempts := 1
    mockLatencyInterval := false
    connectionTimer := true
    fallbackTimer := false
    socketsCreated := 2 }

/-- C1 counterexample: from a connected state, `disconnect()` itself
leaves mock mode off, but the normal-closure (code 1000) close event
that its own `ws.close(1000, ...)` triggers re-activates synthetic mode
and re-arms the synthetic-latency interval, because `ws.onclose` enters
mock mode whenever the reconnect counter is 0 regardless of the close
code. -/
theorem c1_counterexample :
    (disconnect sampleConnectedState).isMockMode = false
    ∧ (step (disconnect sampleConnectedState) (Event.wsClose 1000)).isMockMode = true
    ∧ (step (disconnect sampleConnectedState) (Event.wsClose 1000)).mockLatencyInterval = true := by
  refine ⟨rfl, rfl, rfl⟩

/-- C1 (amended): calling `disconnect()` from any state immediately
yields the idle (disconnected) state with all four ref-held timers
(connect timeout, reconnect backoff, ping interval, synthetic-latency
interval) cancelled, the transport closed with the normal-closure code
1000, the reconnect counter cleared, and synthetic mode off; however,
the normal-close event triggered by the teardown's own close call then
re-activates synthetic mode and re-arms the synthetic-latency
interval. -/
theorem c1_disconnect_teardown (s : HookState) :
    (disconnect s).connectionStatus = ConnStatus.disconnected
    ∧ (disconnect s).reconnectTimer = false
    ∧ (disconnect s).connectionTimer = false
    ∧ (disconnect s).pingInterval = false
    ∧ (disconnect s).mockLatencyInterval = false
    ∧ (disconnect s).isMockMode = false
    ∧ (disconnect s).reconnectAttempts = 0
    ∧ (s.ws ≠ none →
        (disconnect s).closeRequest = CloseRequest.withCode 1000 "Client disconnect"
        ∧ (disconnect s).ws = none)
    ∧ (step (disconnect s) (Event.wsClose 1000)).isMockMode = true
    ∧ (step (disconnect s) (Event.wsClose 1000)).mockLatencyInterval = true := by
  cases hws : s.ws <;>
    simp [disconnect, step, stepCore, handleClose, mockModeEffect, hws]

/-- C1 witness: the amended theorem applied at the concrete connected
state. -/
theorem c1_witness :
    (disconnect sampleConnectedState).closeRequest
        = CloseRequest.withCode 1000 "Client disconnect"
    ∧ (step (disconnect sampleConnectedState) (Event.wsClose 1000)).isMockMode = true := by
  obtain ⟨-, -, -, -, -, -, -, hclose, hmock, -⟩ :=
    c1_disconnect_teardown sampleConnectedState
  exact ⟨(hclose (by decide)).1, hmock⟩

/-- C2 counterexample: in a connected state where no ping has been sent
since the connection opened (`lastPingRef` still holds its initial 0),
an unsolicited `pong` at time 5000 changes the latency sample from 12
to 5000. -/
theorem c2_counterexample :
    sampleConnectedState.lastPing = 0
    ∧ sampleConnectedState.latency = 12
    ∧ (handleMessage sampleConnectedState InMsg.pong 5000).latency = 5000
    ∧ (handleMessage sampleConnectedState InMsg.pong 5000).latency
        ≠ sampleConnectedState.latency := by
  refine ⟨rfl, rfl, rfl, by decide⟩

/-- C2 (amended): the message handler throws no error on any `pong`
(it is total), but it does not ignore an unmatched `pong`: every `pong`
at time `now` unconditionally sets the latency sample to
`now - lastPing` (with `lastPing` the initial 0 or the stale previous
ping time), so the sample changes whenever that difference differs from
the current sample; a malformed payload is caught and leaves the state
unchanged. -/
theorem c2_pong_updates_latency (s : HookState) (now : Nat) :
    handleMessage s InMsg.pong now
        = { s with latency := (now : Int) - (s.lastPing : Int) }
    ∧ handleMessage s InMsg.malformed now = s := by
  exact ⟨rfl, rfl⟩

/-- C3 counterexample: from a connected state with reconnect counter 0,
a transport close with the normal-closure code 1000 activates synthetic
mode. -/
theorem c3_counterexample :
    sampleConnectedState.isMockMode = false
    ∧ (handleClose sampleConnectedState 1000).isMockMode = true := by
  refine ⟨rfl, rfl⟩

/-- C3 (amended): a normal-code (1000) close never arms the reconnect
timer — that happens exactly on an abnormal close with reconnect
counter strictly between 0 and the attempt cap — but a normal close
does activate SyntheticMode whenever the reconnect counter is 0 or at
least the cap at delivery, and its resulting status is disconnected
below the cap, error at or above it. -/
theorem c3_normal_close_policy (s : HookState) (code : Nat) :
    (handleClose s code).reconnectTimer =
      (if s.reconnectAttempts ≠ 0 ∧ code ≠ 1000
            ∧ s.reconnectAttempts < maxReconnectAttempts
        then true else s.reconnectTimer)
    ∧ (handleClose s 1000).reconnectTimer = s.reconnectTimer
    ∧ (handleClose s 1000).isMockMode =
        (if s.reconnectAttempts = 0 ∨ maxReconnectAttempts ≤ s.reconnectAttempts
          then true else s.isMockMode)
    ∧ (handleClose s 1000).connectionStatus =
        (if maxReconnectAttempts ≤ s.reconnectAttempts
          then ConnStatus.error else ConnStatus.disconnected) := by
  rcases h : s.reconnectAttempts with _ | (_ | m)
  · by_cases hc : code = 1000 <;>
      simp [handleClose, maxReconnectAttempts, h, hc]
  · by_cases hc : code = 1000 <;>
      simp [handleClose, maxReconnectAttempts, h, hc]
  · have h2 : ¬ (m + 2 < 2) := by omega
    have h3 : 2 ≤ m + 2 := by omega
    by_cases hc : code = 1000 <;>
      simp [handleClose, maxReconnectAttempts, h, hc, h2, h3]

/-- A `subscribe`/`unsubscribe` call, abstracted to the symbol it
carries. -/
inductive SubOp
  | sub (symbol : String)
  | unsub (symbol : String)
deriving DecidableEq, Repr

/-- Apply one subscription call to the hook state (dropping the sent
messages, which are empty while the transport is not open). -/
def applySubOp (s : HookState) (op : SubOp) : HookState :=
  match op with
  | .sub x => (subscribe s x).1
  | .unsub x => (unsubscribe s x).1

/-- Apply a sequence of subscription calls. -/
def applySubOps (s : HookState) (ops : List SubOp) : HookState :=
  ops.foldl applySubOp s

/-- Modelled from the spec words, for comparison with the code: "the
net set implied by those calls" — insert on subscribe, erase on
unsubscribe, over a finite set of symbols. -/
def specNetSet (ops : List SubOp) (s0 : Finset String) : Finset String :=
  ops.foldl
    (fun acc op =>
      match op with
      | .sub x => insert x acc
      | .unsub x => acc.erase x) s0

theorem mem_addSubscription (l : List String) (x a : String) :
    a ∈ addSubscription l x ↔ a ∈ l ∨ a = x := by
  unfold addSubscription
  by_cases hx : x ∈ l
  · simp only [if_pos hx]
    constructor
    · exact Or.inl
    · rintro (h | rfl)
      · exact h
      · exact hx
  · simp [if_neg hx]

theorem nodup_addSubscription (l : List String) (x : String) (h : l.Nodup) :
    (addSubscription l x).Nodup := by
  unfold addSubscription
  by_cases hx : x ∈ l
  · simpa [if_pos hx] using h
  · simp [if_neg hx, List.nodup_append, h, hx]

theorem toFinset_addSubscription (l : List String) (x : String) :
    (addSubscription l x).toFinset = insert x l.toFinset := by
  ext a
  simp [mem_addSubscription, or_comm]

theorem toFinset_erase_of_nodup (l : List String) (x : String) (h : l.Nodup) :
    (l.erase x).toFinset = l.toFinset.erase x := by
  ext a
  simp [h.mem_erase_iff, and_comm]

theorem applySubOp_ws (s : HookState) (op : SubOp) :
    (applySubOp s op).ws = s.ws := by
  cases op <;> simp only [applySubOp, subscribe, unsubscribe] <;> split <;> rfl

theorem applySubOp_subscriptions (s : HookState) (op : SubOp) :
    (applySubOp s op).subscriptions =
      (match op with
        | .sub x => addSubscription s.subscriptions x
        | .unsub x => s.subscriptions.erase x) := by
  cases op <;> simp only [applySubOp, subscribe, unsubscribe] <;> split <;> rfl

theorem applySubOps_ws (s : HookState) (ops : List SubOp) :
    (applySubOps s ops).ws = s.ws := by
  induction ops generalizing s with
  | nil => rfl
  | cons op rest ih =>
      show (applySubOps (applySubOp s op) rest).ws = s.ws
      rw [ih, applySubOp_ws]

theorem applySubOps_net (ops : List SubOp) (s : HookState)
    (hnd : s.subscriptions.Nodup) :
    (applySubOps s ops).subscriptions.Nodup
    ∧ ∀ x, x ∈ (applySubOps s ops).subscriptions
        ↔ x ∈ specNetSet ops s.subscriptions.toFinset := by
  induction ops generalizing s with
  | nil =>
      exact ⟨hnd, fun x => (List.mem_toFinset).symm⟩
  | cons op rest ih =>
      have hstep : applySubOps s (op :: rest) = applySubOps (applySubOp s op) rest := rfl
      have hnd1 : (applySubOp s op).subscriptions.Nodup := by
        rw [applySubOp_subscriptions]
        cases op with
        | sub x => exact nodup_addSubscription _ _ hnd
        | unsub x => exact hnd.erase x
      obtain ⟨hnd2, hmem⟩ := ih (applySubOp s op) hnd1
      refine ⟨hstep ▸ hnd2, fun x => ?_⟩
      rw [hstep]
      rw [hmem x]
      have hfin : (applySubOp s op).subscriptions.toFinset =
          (match op with
            | SubOp.sub y => insert y s.subscriptions.toFinset
            | SubOp.unsub y => s.subscriptions.toFinset.erase y) := by
        rw [applySubOp_subscriptions]
        cases op with
        | sub y => exact toFinset_addSubscription _ _
        | unsub y => exact toFinset_erase_of_nodup _ _ hnd
      cases op <;> simp [specNetSet, hfin]

theorem subscribeMsg_injective : Function.Injective subscribeMsg := by
  intro a b h
  simpa [subscribeMsg] using h

/-- Number of copies of the wire message `m` in a sent batch. -/
def countOccurrences (m : WireMsg) (l : List WireMsg) : Nat :=
  (l.filter (fun p => decide (p = m))).length

theorem countOccurrences_map_of_nodup (l : List String) (x : String)
    (hnd : l.Nodup) :
    countOccurrences (subscribeMsg x) (l.map subscribeMsg)
      = if x ∈ l then 1 else 0 := by
  induction l with
  | nil => simp [countOccurrences]
  | cons a t ih =>
      have hdt : t.Nodup := (List.nodup_cons.mp hnd).2
      by_cases hax : a = x
      · subst hax
        have hnx : a ∉ t := (List.nodup_cons.mp hnd).1
        have hrest := ih hdt
        simp only [List.map_cons, countOccurrences, List.filter,
          decide_eq_true_eq] at hrest ⊢
        simp [hnx, hrest, if_neg hnx]
      · have hne : subscribeMsg a ≠ subscribeMsg x :=
          fun h => hax (subscribeMsg_injective h)
        have hrest := ih hdt
        have hxa : ¬ (x = a) := fun h => hax h.symm
        simp only [List.map_cons, countOccurrences, List.filter,
          decide_eq_true_eq] at hrest ⊢
        simp [hne, hrest, hxa]

/-- C4: for any sequence of subscribe/unsubscribe calls issued while
the transport is not open, the subscription set afterwards (still with
no duplicate entries) has exactly the membership of the net set implied
by those calls — repeated subscribes are idempotent, unsubscribe
removes — and the next successful open replays exactly one `subscribe`
wire message per symbol in the set, leaving the set itself
unchanged. -/
theorem c4_subscription_replay (s : HookState) (ops : List SubOp)
    (hnd : s.subscriptions.Nodup) (hws : s.ws ≠ some WsState.opened) :
    (applySubOps s ops).ws = s.ws
    ∧ (applySubOps s ops).ws ≠ some WsState.opened
    ∧ (applySubOps s ops).subscriptions.Nodup
    ∧ (∀ x, x ∈ (applySubOps s ops).subscriptions
          ↔ x ∈ specNetSet ops s.subscriptions.toFinset)
    ∧ (handleOpen (applySubOps s ops)).1.subscriptions
        = (applySubOps s ops).subscriptions
    ∧ (handleOpen (applySubOps s ops)).2
        = (applySubOps s ops).subscriptions.map subscribeMsg
    ∧ (∀ x, countOccurrences (subscribeMsg x) (handleOpen (applySubOps s ops)).2
        = if x ∈ (applySubOps s ops).subscriptions then 1 else 0) := by
  obtain ⟨hnd2, hmem⟩ := applySubOps_net ops s hnd
  refine ⟨applySubOps_ws s ops, (applySubOps_ws s ops).symm ▸ hws, hnd2, hmem,
    rfl, rfl, fun x => ?_⟩
  rw [show (handleOpen (applySubOps s ops)).2
      = (applySubOps s ops).subscriptions.map subscribeMsg from rfl]
  exact countOccurrences_map_of_nodup _ x hnd2

/-- C4 witness: from the initial (empty, closed-transport) state, the
call sequence subscribe AAPL, subscribe AAPL, subscribe MSFT,
unsubscribe AAPL nets to the single symbol MSFT, and the replay on open
sends exactly one subscribe message for MSFT and none for AAPL. -/
theorem c4_witness :
    initialState.subscriptions.Nodup
    ∧ initialState.ws ≠ some WsState.opened
    ∧ ("MSFT" ∈ (applySubOps initialState
        [SubOp.sub "AAPL", SubOp.sub "AAPL", SubOp.sub "MSFT", SubOp.unsub "AAPL"]).subscriptions
          ↔ "MSFT" ∈ specNetSet
              [SubOp.sub "AAPL", SubOp.sub "AAPL", SubOp.sub "MSFT", SubOp.unsub "AAPL"]
              initialState.subscriptions.toFinset)
    ∧ countOccurrences (subscribeMsg "MSFT")
        (handleOpen (applySubOps initialState
          [SubOp.sub "AAPL", SubOp.sub "AAPL", SubOp.sub "MSFT", SubOp.unsub "AAPL"])).2
        = (if "MSFT" ∈ (applySubOps initialState
            [SubOp.sub "AAPL", SubOp.sub "AAPL", SubOp.sub "MSFT", SubOp.unsub "AAPL"]).subscriptions
           then 1 else 0) := by
  have h := c4_subscription_replay initialState
    [SubOp.sub "AAPL", SubOp.sub "AAPL", SubOp.sub "MSFT", SubOp.unsub "AAPL"]
    (by simp [initialState]) (by simp [initialState])
  exact ⟨by simp [initialState], by simp [initialState], h.2.2.2.1 "MSFT",
    h.2.2.2.2.2.2 "MSFT"⟩

/-- C5 counterexample: from a retried connection attempt in flight
(reconnect counter 1, below the cap of 2) whose connect-timeout fires,
the code both activates synthetic mode (the timeout handler does so
unconditionally) and schedules a reconnect (from the ensuing abnormal
close) — not a reconnect instead of synthetic mode. -/
theorem c5_counterexample :
    sampleRetryingState.reconnectAttempts = 1
    ∧ 1 < maxReconnectAttempts
    ∧ sampleRetryingState.isMockMode = false
    ∧ (connectTimeoutThenClose sampleRetryingState).isMockMode = true
    ∧ (connectTimeoutThenClose sampleRetryingState).reconnectTimer = true := by
  refine ⟨rfl, by decide, rfl, rfl, rfl⟩

/-- C5 (amended): a connection-attempt failure with reconnect counter 0
(abnormal close, or connect-timeout plus its induced close) goes
straight to synthetic mode without scheduling any retry; with counter
strictly between 0 and the attempt cap, an abnormal transport close
schedules a reconnect and leaves synthetic mode untouched, but a
connect-timeout failure both schedules the reconnect and activates
synthetic mode (the timeout handler enters synthetic mode
unconditionally before the close is delivered). -/
theorem c5_failure_decision (s : HookState) (c : Nat)
    (hws : s.ws ≠ some WsState.opened) :
    (s.reconnectAttempts = 0 →
        (handleClose s c).isMockMode = true
        ∧ (handleClose s c).reconnectTimer = s.reconnectTimer
        ∧ (connectTimeoutThenClose s).isMockMode = true
        ∧ (connectTimeoutThenClose s).reconnectTimer = s.reconnectTimer)
    ∧ (1 ≤ s.reconnectAttempts → s.reconnectAttempts < maxReconnectAttempts →
        c ≠ 1000 →
        (handleClose s c).reconnectTimer = true
        ∧ (handleClose s c).isMockMode = s.isMockMode
        ∧ (connectTimeoutThenClose s).reconnectTimer = true
        ∧ (connectTimeoutThenClose s).isMockMode = true) := by
  constructor
  · intro h0
    simp [handleClose, connectTimeoutThenClose, handleConnectionTimeout, h0, hws]
  · intro h1 h2 hc
    have h2' : s.reconnectAttempts < 2 := h2
    have hra : s.reconnectAttempts = 1 := by omega
    simp [handleClose, connectTimeoutThenClose, handleConnectionTimeout,
      maxReconnectAttempts, hra, hc, hws]

/-- C5 witness: the amended theorem applied at the initial state (first
failure, counter 0) and at the retried attempt (counter 1). -/
theorem c5_witness :
    (handleClose initialState 1006).isMockMode = true
    ∧ (connectTimeoutThenClose sampleRetryingState).reconnectTimer = true
    ∧ (connectTimeoutThenClose sampleRetryingState).isMockMode = true := by
  have ha := (c5_failure_decision initialState 1006 (by decide)).1 rfl
  have hb := (c5_failure_decision sampleRetryingState 1006 (by decide)).2
    (by decide) (by decide) (by decide)
  exact ⟨ha.1, hb.2.2.1, hb.2.2.2⟩

/-- Every event step keeps the reconnect counter at 0 and the reconnect
timer unarmed: the only write that increments the counter (and the only
write that arms the reconnect timer) sits in a close-handler branch
that requires the counter to be nonzero already, so from a zero counter
it is unreachable. -/
theorem mockModeEffect_reconnect_fields (s : HookState) :
    (mockModeEffect s).reconnectAttempts = s.reconnectAttempts
    ∧ (mockModeEffect s).reconnectTimer = s.reconnectTimer := by
  unfold mockModeEffect
  split <;> exact ⟨rfl, rfl⟩

theorem stepCore_preserves_counterFree (s : HookState) (e : Event)
    (h0 : s.reconnectAttempts = 0) (ht : s.reconnectTimer = false) :
    (stepCore s e).1.reconnectAttempts = 0
    ∧ (stepCore s e).1.reconnectTimer = false := by
  cases e with
  | connectCall p =>
      cases p <;> simp only [stepCore, connect] <;> split <;>
        simp [h0, ht]
  | wsMessage m now =>
      cases m <;> simp [stepCore, handleMessage, h0, ht]
  | wsClose code =>
      simp [stepCore, handleClose, h0, ht]
  | wsError =>
      simp [stepCore, handleError, h0, ht]
  | connectionTimeoutFire =>
      simp only [stepCore, handleConnectionTimeout]
      split <;> simp [h0, ht]
  | pingIntervalFire now =>
      simp only [stepCore, pingTick]
      split <;> simp [h0, ht]
  | disconnectCall =>
      simp [stepCore, disconnect]
  | subscribeCall symbol =>
      simp only [stepCore, subscribe]
      split <;> simp [h0, ht]
  | unsubscribeCall symbol =>
      simp only [stepCore, unsubscribe]
      split <;> simp [h0, ht]
  | wsOpen =>
      simp [stepCore, handleOpen, h0, ht]
  | fallbackFire =>
      simp only [stepCore, handleFallback]
      split <;> simp [h0, ht]
  | mockLatencyFire r =>
      simp [stepCore, mockTick, h0, ht]

theorem step_preserves_counterFree (s : HookState) (e : Event)
    (h0 : s.reconnectAttempts = 0) (ht : s.reconnectTimer = false) :
    (step s e).reconnectAttempts = 0 ∧ (step s e).reconnectTimer = false := by
  have hm := mockModeEffect_reconnect_fields (stepCore s e).1
  have hg := stepCore_preserves_counterFree s e h0 ht
  have hstep : step s e = mockModeEffect (stepCore s e).1 := rfl
  rw [hstep, hm.1, hm.2]
  exact hg

/-- Along any event sequence from a state with zero reconnect counter
and no armed reconnect timer, both stay that way. -/
theorem run_counterFree (es : List Event) (s : HookState)
    (h0 : s.reconnectAttempts = 0) (ht : s.reconnectTimer = false) :
    (run s es).reconnectAttempts = 0 ∧ (run s es).reconnectTimer = false := by
  induction es generalizing s with
  | nil => exact ⟨h0, ht⟩
  | cons e rest ih =>
      obtain ⟨h0', ht'⟩ := step_preserves_counterFree s e h0 ht
      exact ih (step s e) h0' ht'

/-- A transport close delivered with reconnect counter 0 activates
synthetic mode (and the mock-mode effect arms the synthetic-latency
interval). -/
theorem close_at_zero_counter_sets_mock (s : HookState) (c : Nat)
    (h0 : s.reconnectAttempts = 0) :
    (step s (Event.wsClose c)).isMockMode = true
    ∧ (step s (Event.wsClose c)).mockLatencyInterval = true := by
  simp [step, stepCore, handleClose, mockModeEffect, h0]

/-- C6: in any execution from the initial state, after
`maxReconnectAttempts` (= 2) consecutive abnormal closes the manager is
in synthetic mode with no reconnect timer armed, and no reconnect timer
is ever scheduled by any further events either (in this code the
reconnect timer is in fact never armed in any reachable execution). -/
theorem c6_no_reconnect_after_max (es es2 : List Event) (c : Nat)
    (hc : c ≠ 1000) :
    maxReconnectAttempts = 2
    ∧ (run initialState (es ++ [Event.wsClose c, Event.wsClose c])).isMockMode = true
    ∧ (run initialState (es ++ [Event.wsClose c, Event.wsClose c])).reconnectTimer = false
    ∧ (run (run initialState (es ++ [Event.wsClose c, Event.wsClose c])) es2).reconnectTimer
        = false := by
  have hbase := run_counterFree es initialState rfl rfl
  have hrw : run initialState (es ++ [Event.wsClose c, Event.wsClose c])
      = step (step (run initialState es) (Event.wsClose c)) (Event.wsClose c) := by
    rw [run, List.foldl_append]
    rfl
  have h1 := step_preserves_counterFree (run initialState es) (Event.wsClose c)
    hbase.1 hbase.2
  have hmock := close_at_zero_counter_sets_mock
    (step (run initialState es) (Event.wsClose c)) c h1.1
  have h2 := step_preserves_counterFree
    (step (run initialState es) (Event.wsClose c)) (Event.wsClose c) h1.1 h1.2
  have h3 := run_counterFree es2
    (run initialState (es ++ [Event.wsClose c, Event.wsClose c]))
    (hrw ▸ h2.1) (hrw ▸ h2.2)
  exact ⟨rfl, hrw ▸ hmock.1, hrw ▸ h2.2, h3.2⟩

/-- C6 witness: two consecutive abnormal (1006) closes from the initial
state, followed by a further event, with the hypotheses discharged
concretely. -/
theorem c6_witness :
    (1006 ≠ 1000)
    ∧ (run initialState ([] ++ [Event.wsClose 1006, Event.wsClose 1006])).isMockMode = true
    ∧ (run initialState ([] ++ [Event.wsClose 1006, Event.wsClose 1006])).reconnectTimer = false
    ∧ (run (run initialState ([] ++ [Event.wsClose 1006, Event.wsClose 1006]))
        [Event.pingIntervalFire 99]).reconnectTimer = false := by
  have h := c6_no_reconnect_after_max [] [Event.pingIntervalFire 99] 1006 (by decide)
  exact ⟨by decide, h.2.1, h.2.2.1, h.2.2.2⟩

/-- C7 counterexample: the backoff cap constant in the code is 3000 ms,
which is not below 3 seconds. -/
theorem c7_counterexample : backoffCapMs = 3000 ∧ ¬ (backoffCapMs < 3000) := by
  exact ⟨rfl, by decide⟩

/-- C7 (amended): every scheduled reconnect (abnormal close with
reconnect counter between 1 and the attempt cap 2) increments the
counter and uses a backoff delay of
`min(backoffBase * 2 ^ newCounter, backoffCap)` milliseconds with base
500 and cap exactly 3000 (3 seconds, not strictly below); with the
attempt cap of 2 the only delay ever scheduled is 2000 ms, so every
backoff delay is at most 3000 ms. -/
theorem c7_backoff_delay (s : HookState) (c : Nat)
    (h1 : 1 ≤ s.reconnectAttempts) (h2 : s.reconnectAttempts < maxReconnectAttempts)
    (hc : c ≠ 1000) :
    (handleClose s c).reconnectTimer = true
    ∧ (handleClose s c).reconnectAttempts = s.reconnectAttempts + 1
    ∧ (handleClose s c).scheduledDelay
        = min (backoffBaseMs * 2 ^ (s.reconnectAttempts + 1)) backoffCapMs
    ∧ (handleClose s c).scheduledDelay = 2000
    ∧ (handleClose s c).scheduledDelay ≤ 3000
    ∧ maxReconnectAttempts = 2 := by
  have h2' : s.reconnectAttempts < 2 := h2
  have hra : s.reconnectAttempts = 1 := by omega
  simp [handleClose, maxReconnectAttempts, backoffBaseMs, backoffCapMs, hra, hc]

/-- C7 witness: the amended theorem applied at the retried attempt with
an abnormal (1006) close. -/
theorem c7_witness :
    (handleClose sampleRetryingState 1006).scheduledDelay = 2000
    ∧ (handleClose sampleRetryingState 1006).reconnectAttempts = 2 := by
  have h := c7_backoff_delay sampleRetryingState 1006 (by decide) (by decide) (by decide)
  exact ⟨h.2.2.2.1, h.2.1⟩

/-- C8: when the socket is not already open, a `connect()` whose health
probe resolves with an explicit negative result (`response.ok` false)
creates no socket, leaves the transport untouched, and goes straight to
error status with synthetic mode on; for the other two probe outcomes
(positive, or any fetch error / abort, which the code maps to null) the
transport handshake is attempted: a new socket is created in the
connecting state with the 1.2 s connect-timeout armed. -/
theorem c8_probe_gating (s : HookState) (hws : s.ws ≠ some WsState.opened) :
    (connect s ProbeResult.notOk).socketsCreated = s.socketsCreated
    ∧ (connect s ProbeResult.notOk).ws = s.ws
    ∧ (connect s ProbeResult.notOk).isMockMode = true
    ∧ (connect s ProbeResult.notOk).connectionStatus = ConnStatus.error
    ∧ (connect s ProbeResult.ok).socketsCreated = s.socketsCreated + 1
    ∧ (connect s ProbeResult.ok).ws = some WsState.connecting
    ∧ (connect s ProbeResult.ok).connectionTimer = true
    ∧ (connect s ProbeResult.fetchError).socketsCreated = s.socketsCreated + 1
    ∧ (connect s ProbeResult.fetchError).ws = some WsState.connecting
    ∧ (connect s ProbeResult.fetchError).connectionTimer = true := by
  simp [connect, hws]

/-- C8 witness: the theorem applied at the initial state. -/
theorem c8_witness :
    (connect initialState ProbeResult.notOk).socketsCreated = 0
    ∧ (connect initialState ProbeResult.notOk).isMockMode = true
    ∧ (connect initialState ProbeResult.fetchError).socketsCreated = 1
    ∧ (connect initialState ProbeResult.fetchError).ws = some WsState.connecting := by
  have h := c8_probe_gating initialState (by decide)
  exact ⟨h.1, h.2.2.1, h.2.2.2.2.2.2.2.1, h.2.2.2.2.2.2.2.2.1⟩

/-- C9 counterexample: the ping, subscribe and unsubscribe wire
messages the manager sends carry no `timestamp` field at all — the ping
sent by an interval tick is exactly `{ type: 'ping' }`. -/
theorem c9_counterexample :
    hasKey "timestamp" pingMsg = false
    ∧ hasKey "timestamp" (subscribeMsg "AAPL") = false
    ∧ hasKey "timestamp" (unsubscribeMsg "AAPL") = false
    ∧ (pingTick sampleConnectedState 123456).2 = [pingMsg] := by
  refine ⟨rfl, rfl, rfl, rfl⟩

/-- C9 (amended): on an open socket the outbound messages are JSON
objects with only a `type` field (ping) or `type` and `symbol` fields
(subscribe/unsubscribe); none carries a `timestamp` field.  The ping
tick records its send time only locally, in `lastPingRef`, for the
latency computation — it is not transmitted. -/
theorem c9_no_timestamp_sent (s : HookState) (now : Nat) (sym : String)
    (hws : s.ws = some WsState.opened) :
    (pingTick s now).2 = [pingMsg]
    ∧ (pingTick s now).1.lastPing = now
    ∧ hasKey "timestamp" pingMsg = false
    ∧ hasKey "type" pingMsg = true
    ∧ (subscribe s sym).2 = [subscribeMsg sym]
    ∧ hasKey "timestamp" (subscribeMsg sym) = false
    ∧ hasKey "symbol" (subscribeMsg sym) = true
    ∧ (unsubscribe s sym).2 = [unsubscribeMsg sym]
    ∧ hasKey "timestamp" (unsubscribeMsg sym) = false := by
  refine ⟨?_, ?_, rfl, rfl, ?_, rfl, rfl, ?_, rfl⟩
  · simp [pingTick, hws]
  · simp [pingTick, hws]
  · simp [subscribe, hws]
  · simp [unsubscribe, hws]

/-- C9 witness: the amended theorem applied on the connected state. -/
theorem c9_witness :
    (pingTick sampleConnectedState 123).2 = [pingMsg]
    ∧ (pingTick sampleConnectedState 123).1.lastPing = 123
    ∧ hasKey "timestamp" (subscribeMsg "AAPL") = false := by
  have h := c9_no_timestamp_sent sampleConnectedState 123 "AAPL" (by decide)
  exact ⟨h.1, h.2.1, h.2.2.2.2.2.1⟩

/-- C10: the mount effect arms the one-shot 0.8 s fallback timer while
the connection attempt is still in flight (socket connecting, 1.2 s
connect-timeout armed), and 800 < 1200; when the fallback fires in any
state that is neither connected nor already in synthetic mode it
activates synthetic mode directly, consuming its timer and touching
neither the socket, the connect-timeout, nor the sockets-created count
— no probe result, timeout or close event is involved. -/
theorem c10_mount_fallback (s : HookState)
    (h1 : s.isConnected = false) (h2 : s.isMockMode = false) :
    (handleFallback s).isMockMode = true
    ∧ (handleFallback s).fallbackTimer = false
    ∧ (handleFallback s).ws = s.ws
    ∧ (handleFallback s).connectionTimer = s.connectionTimer
    ∧ (handleFallback s).socketsCreated = s.socketsCreated
    ∧ fallbackTimeoutMs < connectionTimeoutMs
    ∧ (mount ProbeResult.ok).fallbackTimer = true
    ∧ (mount ProbeResult.ok).ws = some WsState.connecting
    ∧ (mount ProbeResult.ok).connectionTimer = true
    ∧ (mount ProbeResult.ok).isConnected = false
    ∧ (mount ProbeResult.ok).isMockMode = false := by
  refine ⟨?_, ?_, ?_, ?_, ?_, by decide, rfl, rfl, rfl, rfl, rfl⟩ <;>
    simp [handleFallback, h1, h2]

/-- C10 witness: the fallback fires on the freshly mounted, in-flight
state and activates synthetic mode there. -/
theorem c10_witness :
    (handleFallback (mount ProbeResult.ok)).isMockMode = true
    ∧ (handleFallback (mount ProbeResult.ok)).ws = (mount ProbeResult.ok).ws
    ∧ (handleFallback (mount ProbeResult.ok)).connectionTimer
        = (mount ProbeResult.ok).connectionTimer := by
  have h := c10_mount_fallback (mount ProbeResult.ok) (by decide) (by decide)
  exact ⟨h.1, h.2.2.1, h.2.2.2.1⟩

end MarketVision
